import Mathlib

/-!
Verification development for the catapult-rest cursor query engine.

The definitions below are a shallow embedding of the JavaScript sources:

* `src/unnamed/part_003` — the cursor `CatapultDb` class (namespace `CatapultDb`);
* `src/rest/src/db/CatapultDb.js` — the older coexisting `CatapultDb`
  (namespace `CatapultDbLegacy`);
* `src/rest/src/plugins/namespace/NamespaceDb.js` (= `src/unnamed/part_002`,
  first document) — namespace and balance cursors (namespace `NamespaceDb`);
* `src/rest/src/routes/routeUtils.js` — validators and the duration-collection
  sender (namespace `routeUtils`).

Mongo `Long` values are embedded as `Int`, with 64-bit two's-complement
wrapping made explicit (`wrap64`) where the source performs `Long` addition.
Mongo `ObjectId` values (12 bytes, 24 hex digits) are embedded as `Nat`.
A find or aggregate call is one store query; every database method returns
its value paired with the number of store queries it issued.
-/

/-- Two's-complement wrap of an integer into the signed 64-bit range,
the behaviour of mongodb `Long` addition. -/
def wrap64 (x : Int) : Int :=
  (x + 2 ^ 63) % 2 ^ 64 - 2 ^ 63

/-- Value of mongodb `new Long(low, high)`: `high * 2^32 + low`, read as a
signed 64-bit integer. -/
def longFromBits (low high : Nat) : Int :=
  let u : Nat := high * 2 ^ 32 + low
  if u < 2 ^ 63 then (u : Int) else (u : Int) - 2 ^ 64

/-- The `'$lt'` / `'$gt'` ordering strings threaded through
`accountMatchCondition`. -/
inductive MongoOrd where
  | lt
  | gt
deriving DecidableEq, Repr

/-- Apply a Mongo ordering operator to two integers (`Long` comparison). -/
def MongoOrd.cmpInt : MongoOrd → Int → Int → Bool
  | .lt, a, b => a < b
  | .gt, a, b => a > b

/-- Apply a Mongo ordering operator to two document ids (`ObjectId`
comparison; ids are embedded as `Nat`). -/
def MongoOrd.cmpNat : MongoOrd → Nat → Nat → Bool
  | .lt, a, b => a < b
  | .gt, a, b => a > b

/-- Insert into a list sorted by the boolean comparator `le`. -/
def insertDesc (le : α → α → Bool) (a : α) : List α → List α
  | [] => [a]
  | b :: bs => if le a b then a :: b :: bs else b :: insertDesc le a bs

/-- Sort by the boolean comparator `le` (insertion sort); embeds the `.sort`
stage of a Mongo cursor or aggregation. -/
def sortWith (le : α → α → Bool) : List α → List α
  | [] => []
  | a :: as => insertDesc le a (sortWith le as)

theorem length_insertDesc (le : α → α → Bool) (a : α) (l : List α) :
    (insertDesc le a l).length = l.length + 1 := by
  induction l with
  | nil => rfl
  | cons b bs ih =>
    simp only [insertDesc]
    by_cases h : le a b = true
    · simp [h]
    · simp [h, ih]

theorem length_sortWith (le : α → α → Bool) (l : List α) :
    (sortWith le l).length = l.length := by
  induction l with
  | nil => rfl
  | cons a as ih => simp [sortWith, length_insertDesc, ih]

-- # Documents and the store

/-- One element of `account.importances[]`. -/
structure ImportanceSnapshot where
  value : Int
  height : Int
deriving DecidableEq, Repr

/-- One element of `account.activityBuckets[]`. -/
structure ActivityBucket where
  totalFeesPaid : Int
deriving DecidableEq, Repr

/-- One element of `account.mosaics[]`. -/
structure AccountMosaic where
  id : Int
  amount : Int
deriving DecidableEq, Repr

/-- An `accounts` collection document. The stored document holds only the
`account` subdocument and the internal `_id` (embedded as `oid`); there is no
`meta` subdocument on account documents. -/
structure AccountDoc where
  oid : Nat
  address : Nat
  publicKeyHeight : Int
  importances : List ImportanceSnapshot
  activityBuckets : List ActivityBucket
  mosaics : List AccountMosaic
deriving DecidableEq, Repr

/-- A transaction collection document: `_id` (as `oid`), `meta.hash`,
`meta.height`, `meta.index` and the optional `meta.aggregateId`
back-reference. -/
structure TxDoc where
  oid : Nat
  hash : Nat
  height : Int
  index : Int
  aggregateId : Option Nat
deriving DecidableEq, Repr

/-- A `namespaces` collection document: `_id` (as `oid`), `meta.active`,
`namespace.depth`, `namespace.level0..2`, `namespace.startHeight` and
`namespace.alias.mosaicId`. -/
structure NamespaceDoc where
  oid : Nat
  active : Bool
  depth : Int
  level0 : Int
  level1 : Int
  level2 : Int
  startHeight : Int
  aliasMosaicId : Int
deriving DecidableEq, Repr

/-- The transaction collection names the cursor methods receive. -/
inductive Coll where
  | transactions
  | unconfirmedTransactions
  | partialTransactions
deriving DecidableEq, BEq, Repr

/-- The document store: the relevant collections and the
`chainStatistic.current.height` value. -/
structure Store where
  chainHeight : Int
  transactions : List TxDoc
  unconfirmedTransactions : List TxDoc
  partialTransactions : List TxDoc
  namespaces : List NamespaceDoc
  accounts : List AccountDoc
deriving Repr

/-- The documents of a transaction collection. -/
def Store.collDocs (s : Store) : Coll → List TxDoc
  | .transactions => s.transactions
  | .unconfirmedTransactions => s.unconfirmedTransactions
  | .partialTransactions => s.partialTransactions

-- # Result documents

/-- A transaction document after `copyAndDeleteIds`: the internal id copied
to `meta.id` and deleted (the `meta.addresses` projection is not modelled
because addresses are not part of `TxDoc`). -/
structure TxOut where
  id : Nat
  hash : Nat
  height : Int
  index : Int
  aggregateId : Option Nat
deriving DecidableEq, Repr

/-- A namespace document after `copyAndDeleteIds`. -/
structure NamespaceOut where
  id : Nat
  active : Bool
  depth : Int
  level0 : Int
  level1 : Int
  level2 : Int
  startHeight : Int
  aliasMosaicId : Int
deriving DecidableEq, Repr

/-- An account document as the sorted account pipelines return it: after
`deleteIds` (no id) and the projection that strips `account.importances` and
every pipeline-specific computed sort field; `account.importance` and
`account.importanceHeight` are added by every pipeline and never projected
away. -/
structure AccountOut where
  address : Nat
  publicKeyHeight : Int
  activityBuckets : List ActivityBucket
  mosaics : List AccountMosaic
  importance : Int
  importanceHeight : Int
deriving DecidableEq, Repr

/-- The anchor account document produced by
`rawAccountWithImportanceByAddress`, `rawAccountWithHarvestedBlocksByAddress`
and `rawAccountWithHarvestedFeesByAddress`: `_id` kept (as `oid`),
`account.importances` projected away, computed `account.importance` and
`account.importanceHeight` kept.  The harvested resolvers also add
`account.harvestedBlocks` (and `account.harvestedFees`) but project them away
again, so all three resolvers yield this same shape. -/
structure RawAccountImp where
  oid : Nat
  address : Nat
  publicKeyHeight : Int
  activityBuckets : List ActivityBucket
  mosaics : List AccountMosaic
  importance : Int
  importanceHeight : Int
deriving DecidableEq, Repr

/-- The anchor account document produced by
`rawAccountWithCurrencyBalanceByAddress` (and the harvest variant): the
projection removes only `account.importances`, so the computed
`account.balance` is kept alongside the importance fields. -/
structure RawAccountBal where
  oid : Nat
  address : Nat
  publicKeyHeight : Int
  activityBuckets : List ActivityBucket
  mosaics : List AccountMosaic
  importance : Int
  importanceHeight : Int
  balance : Int
deriving DecidableEq, Repr

namespace CatapultDb

-- ## Storage helper sentinels (src/unnamed/part_003, lines 176-194)

/-- Source comment: "Get the minimum signed value for a long."  The source
returns `new Long(0, 0)`. -/
def minLong : Int := longFromBits 0 0

/-- Source comment: "Get the maximum signed value for a long."  The source
returns `new Long(0XFFFFFFFF, 0X7FFFFFFF)`. -/
def maxLong : Int := longFromBits 0xFFFFFFFF 0x7FFFFFFF

/-- `new ObjectId('000000000000000000000000')`. -/
def minObjectId : Nat := 0x000000000000000000000000

/-- `new ObjectId('FFFFFFFFFFFFFFFFFFFFFFFF')`. -/
def maxObjectId : Nat := 0xFFFFFFFFFFFFFFFFFFFFFFFF

-- ## Cursor retrieval helpers (src/unnamed/part_003, lines 242-272)

/-- `arrayFromEmpty`: zero records, no store query. -/
def arrayFromEmpty : List α × Nat := ([], 0)

/-- `arrayFromAbsolute`: the N records from an absolute anchor.  The count
(always the last argument) is checked before the query method runs. -/
def arrayFromAbsolute (genArgs : Unit → α) (method : α → List β × Nat)
    (count : Nat) : List β × Nat :=
  if count = 0 then arrayFromEmpty else method (genArgs ())

/-- `arrayFromRecord`: records relative (non-inclusive) to a resolved record.
An unresolved record (`undefined` in the source) propagates as `none`; the
count is checked only after the record test, and before the query method
runs. -/
def arrayFromRecord (record : Option ρ) (genArgs : ρ → α)
    (method : α → List β × Nat) (count : Nat) : Option (List β) × Nat :=
  match record with
  | none => (none, 0)
  | some r =>
      if count = 0 then (some (arrayFromEmpty : List β × Nat).1, (arrayFromEmpty : List β × Nat).2)
      else
        let res := method (genArgs r)
        (some res.1, res.2)

/-- `arrayFromId`: records relative to a record looked up by an id.  The id
lookup always runs first; its query count is added to the query count of the
record-relative method. -/
def arrayFromId (idLookup : Option ρ × Nat)
    (arrayMethod : Option ρ → Option (List β) × Nat) : Option (List β) × Nat :=
  let res := arrayMethod idLookup.1
  (res.1, idLookup.2 + res.2)

-- ## Cursor transaction retrieval (src/unnamed/part_003, lines 504-615)

/-- `copyAndDeleteIds` on a transaction document (the `meta.addresses`
projection has no counterpart in `TxDoc`). -/
def txOut (d : TxDoc) : TxOut :=
  ⟨d.oid, d.hash, d.height, d.index, d.aggregateId⟩

/-- The comparator of the sort `{ 'meta.height': -1, 'meta.index': -1 }`. -/
def txSortLe (a b : TxDoc) : Bool :=
  b.height < a.height || (a.height == b.height && b.index ≤ a.index)

/-- `sortedTransactions`: find, sort descending by height then index,
project, limit, sanitize.  One store query. -/
def sortedTransactions (s : Store) (c : Coll) (condition : TxDoc → Bool)
    (count : Nat) : List TxOut × Nat :=
  ((((sortWith txSortLe ((s.collDocs c).filter condition)).map txOut).take count), 1)

/-- `transactionsFrom`: transactions strictly before the `(height, index)`
anchor tuple; dependent (aggregate-child) documents are excluded except in
the partial-transactions collection, where they are required. -/
def transactionsFrom (s : Store) (c : Coll) (height index : Int)
    (count : Nat) : List TxOut × Nat :=
  let isAggregate := c == Coll.partialTransactions
  let condition := fun (d : TxDoc) =>
    (d.aggregateId.isSome == isAggregate) &&
      ((d.height == height && d.index < index) || d.height < height)
  sortedTransactions s c condition count

/-- `transactionsSince`: transactions strictly after the `(height, index)`
anchor tuple. -/
def transactionsSince (s : Store) (c : Coll) (height index : Int)
    (count : Nat) : List TxOut × Nat :=
  let isAggregate := c == Coll.partialTransactions
  let condition := fun (d : TxDoc) =>
    (d.aggregateId.isSome == isAggregate) &&
      ((d.height == height && d.index > index) || d.height > height)
  sortedTransactions s c condition count

/-- `transactionsFromEarliest`: always empty. -/
def transactionsFromEarliest (_s : Store) (_c : Coll) (_count : Nat) :
    List TxOut × Nat :=
  arrayFromEmpty

/-- `transactionsSinceEarliest`: absolute anchor `[minLong, -1]`. -/
def transactionsSinceEarliest (s : Store) (c : Coll) (count : Nat) :
    List TxOut × Nat :=
  arrayFromAbsolute (fun _ => (minLong, (-1 : Int)))
    (fun a => transactionsSince s c a.1 a.2 count) count

/-- `transactionsFromLatest`: absolute anchor `[maxLong, 0]`. -/
def transactionsFromLatest (s : Store) (c : Coll) (count : Nat) :
    List TxOut × Nat :=
  arrayFromAbsolute (fun _ => (maxLong, (0 : Int)))
    (fun a => transactionsFrom s c a.1 a.2 count) count

/-- `transactionsSinceLatest`: always empty. -/
def transactionsSinceLatest (_s : Store) (_c : Coll) (_count : Nat) :
    List TxOut × Nat :=
  arrayFromEmpty

/-- `transactionsFromTransaction`: anchor tuple read from the record
(`info.meta.height`, `info.meta.index`). -/
def transactionsFromTransaction (s : Store) (c : Coll) (record : Option TxDoc)
    (count : Nat) : Option (List TxOut) × Nat :=
  arrayFromRecord record (fun i => (i.height, i.index))
    (fun a => transactionsFrom s c a.1 a.2 count) count

/-- `transactionsSinceTransaction`. -/
def transactionsSinceTransaction (s : Store) (c : Coll) (record : Option TxDoc)
    (count : Nat) : Option (List TxOut) × Nat :=
  arrayFromRecord record (fun i => (i.height, i.index))
    (fun a => transactionsSince s c a.1 a.2 count) count

/-- `rawTransactionByHash`: `findOne` on `meta.hash`; one store query, no
sanitizing. -/
def rawTransactionByHash (s : Store) (c : Coll) (hash : Nat) :
    Option TxDoc × Nat :=
  ((s.collDocs c).find? (fun d => d.hash == hash), 1)

/-- `rawTransactionById`: `findOne` on `_id`; one store query.  The source
then applies `copyAndDeleteId`, which moves the internal id to `meta.id`;
the fields the cursor reads (`meta.height`, `meta.index`) are unaffected, so
the document is returned unchanged here. -/
def rawTransactionById (s : Store) (c : Coll) (i : Nat) :
    Option TxDoc × Nat :=
  ((s.collDocs c).find? (fun d => d.oid == i), 1)

/-- `transactionsFromHash`. -/
def transactionsFromHash (s : Store) (c : Coll) (hash : Nat) (count : Nat) :
    Option (List TxOut) × Nat :=
  arrayFromId (rawTransactionByHash s c hash)
    (fun r => transactionsFromTransaction s c r count)

/-- `transactionsSinceHash`. -/
def transactionsSinceHash (s : Store) (c : Coll) (hash : Nat) (count : Nat) :
    Option (List TxOut) × Nat :=
  arrayFromId (rawTransactionByHash s c hash)
    (fun r => transactionsSinceTransaction s c r count)

/-- `transactionsFromId`. -/
def transactionsFromId (s : Store) (c : Coll) (i : Nat) (count : Nat) :
    Option (List TxOut) × Nat :=
  arrayFromId (rawTransactionById s c i)
    (fun r => transactionsFromTransaction s c r count)

/-- `transactionsSinceId`. -/
def transactionsSinceId (s : Store) (c : Coll) (i : Nat) (count : Nat) :
    Option (List TxOut) × Nat :=
  arrayFromId (rawTransactionById s c i)
    (fun r => transactionsSinceTransaction s c r count)

-- ## Cursor account helpers (src/unnamed/part_003, lines 758-807)

/-- `addFieldImportance` (`addFieldImportanceImpl('value')`): the `value` of
the last element of `account.importances`, defaulting to a zero long when
the list is empty. -/
def addFieldImportance (d : AccountDoc) : Int :=
  match d.importances.getLast? with
  | some snapshot => snapshot.value
  | none => 0

/-- `addFieldImportanceHeight` (`addFieldImportanceImpl('height')`). -/
def addFieldImportanceHeight (d : AccountDoc) : Int :=
  match d.importances.getLast? with
  | some snapshot => snapshot.height
  | none => 0

/-- `addFieldHarvestedBlocks`: `$size` of `account.activityBuckets`. -/
def addFieldHarvestedBlocks (d : AccountDoc) : Int :=
  (d.activityBuckets.length : Int)

/-- `addFieldHarvestedFees`: `$reduce` sum of
`account.activityBuckets[].totalFeesPaid` from an explicit zero long. -/
def addFieldHarvestedFees (d : AccountDoc) : Int :=
  d.activityBuckets.foldl (fun acc b => acc + b.totalFeesPaid) 0

/-- Projection applied by every sorted account pipeline: `deleteIds`, strip
`account.importances` and the pipeline-specific computed fields, keep the
computed `account.importance` and `account.importanceHeight`. -/
def accountOut (d : AccountDoc) : AccountOut :=
  ⟨d.address, d.publicKeyHeight, d.activityBuckets, d.mosaics,
    addFieldImportance d, addFieldImportanceHeight d⟩

/-- The `meta.publicKeyHeight` path referenced by `accountMatchCondition`.
Account documents hold only the `account` subdocument, so this path is a
missing field on every account document. -/
def accountMetaPublicKeyHeight (_d : AccountDoc) : Option Int := none

/-- Mongo `$eq` of a possibly missing field against a long value: a missing
field does not match. -/
def mongoEqMissing (f : Option Int) (v : Int) : Bool :=
  match f with
  | some x => x == v
  | none => false

/-- Mongo `$lt` / `$gt` of a possibly missing field against a long value: a
missing field does not match. -/
def mongoCmpMissing (ord : MongoOrd) (f : Option Int) (v : Int) : Bool :=
  match f with
  | some x => ord.cmpInt x v
  | none => false

/-- `accountMatchCondition` (src/unnamed/part_003, lines 849-865), as a
predicate of the materialized primary sort value (`account.${field}`) and
the document: field below the value, or field equal and the
`meta.publicKeyHeight` tie-break. -/
def accountMatchCondition (ord : MongoOrd) (value height : Int) (id : Nat) :
    Int → AccountDoc → Bool :=
  fun fieldVal d =>
    ord.cmpInt fieldVal value ||
    (fieldVal == value &&
      ((mongoEqMissing (accountMetaPublicKeyHeight d) height &&
          ord.cmpNat d.oid id) ||
        mongoCmpMissing ord (accountMetaPublicKeyHeight d) height))

-- ## Cursor account by importance retrieval (src/unnamed/part_003, lines 810-929)

/-- `rawAccountWithImportanceByAddress`: aggregation matching
`account.address`, limit 1, `addFields` importance and importanceHeight,
projection `{ 'account.importances': 0 }`.  One store query. -/
def rawAccountWithImportanceByAddress (s : Store) (addr : Nat) :
    Option RawAccountImp × Nat :=
  let r := s.accounts.find? (fun d => d.address == addr)
  (r.map (fun d =>
    ⟨d.oid, d.address, d.publicKeyHeight, d.activityBuckets, d.mosaics,
      addFieldImportance d, addFieldImportanceHeight d⟩), 1)

/-- The comparator of the sort
`{ 'account.importance': -1, 'account.publicKeyHeight': -1, _id: -1 }`. -/
def accountsByImportanceSortLe (a b : AccountDoc) : Bool :=
  addFieldImportance b < addFieldImportance a ||
  (addFieldImportance a == addFieldImportance b &&
    (b.publicKeyHeight < a.publicKeyHeight ||
      (a.publicKeyHeight == b.publicKeyHeight && b.oid ≤ a.oid)))

/-- `sortedAccountsByImportance`: aggregation `addFields` + `match`, sort
descending by (importance, publicKeyHeight, id), project, limit, `deleteIds`.
The match condition receives the materialized `account.importance`. -/
def sortedAccountsByImportance (s : Store)
    (matchCond : Int → AccountDoc → Bool) (count : Nat) :
    List AccountOut × Nat :=
  (((sortWith accountsByImportanceSortLe
      (s.accounts.filter (fun d => matchCond (addFieldImportance d) d))).map
        accountOut).take count, 1)

/-- `accountsByImportanceFrom`: match `accountMatchCondition('importance', '$lt', ...)`. -/
def accountsByImportanceFrom (s : Store) (importance height : Int) (id : Nat)
    (numAccounts : Nat) : List AccountOut × Nat :=
  sortedAccountsByImportance s
    (accountMatchCondition .lt importance height id) numAccounts

/-- `accountsByImportanceSince`: match `accountMatchCondition('importance', '$gt', ...)`. -/
def accountsByImportanceSince (s : Store) (importance height : Int) (id : Nat)
    (numAccounts : Nat) : List AccountOut × Nat :=
  sortedAccountsByImportance s
    (accountMatchCondition .gt importance height id) numAccounts

/-- `accountsByImportanceFromLeast`: always empty. -/
def accountsByImportanceFromLeast (_s : Store) (_count : Nat) :
    List AccountOut × Nat :=
  arrayFromEmpty

/-- `accountsByImportanceSinceLeast`: absolute anchor
`[minLong, minLong, minObjectId]` into `accountsByImportanceSince`. -/
def accountsByImportanceSinceLeast (s : Store) (count : Nat) :
    List AccountOut × Nat :=
  arrayFromAbsolute (fun _ => (minLong, minLong, minObjectId))
    (fun a => accountsByImportanceSince s a.1 a.2.1 a.2.2 count) count

/-- `accountsByImportanceFromMost`: absolute anchor
`[maxLong, maxLong, maxObjectId]` into `accountsByImportanceFrom`. -/
def accountsByImportanceFromMost (s : Store) (count : Nat) :
    List AccountOut × Nat :=
  arrayFromAbsolute (fun _ => (maxLong, maxLong, maxObjectId))
    (fun a => accountsByImportanceFrom s a.1 a.2.1 a.2.2 count) count

/-- `accountsByImportanceSinceMost`: always empty. -/
def accountsByImportanceSinceMost (_s : Store) (_count : Nat) :
    List AccountOut × Nat :=
  arrayFromEmpty

/-- `accountsByImportanceFromAccount`: anchor tuple
`[account.account.importance, account.account.publicKeyHeight, account._id]`
dispatched to `accountsByImportanceFrom`. -/
def accountsByImportanceFromAccount (s : Store) (record : Option RawAccountImp)
    (count : Nat) : Option (List AccountOut) × Nat :=
  arrayFromRecord record (fun a => (a.importance, a.publicKeyHeight, a.oid))
    (fun t => accountsByImportanceFrom s t.1 t.2.1 t.2.2 count) count

/-- `accountsByImportanceSinceAccount` (src/unnamed/part_003, lines 909-913):
the source sets `method = 'accountsByImportanceFrom'`, so the since wrapper
dispatches to the from query. -/
def accountsByImportanceSinceAccount (s : Store) (record : Option RawAccountImp)
    (count : Nat) : Option (List AccountOut) × Nat :=
  arrayFromRecord record (fun a => (a.importance, a.publicKeyHeight, a.oid))
    (fun t => accountsByImportanceFrom s t.1 t.2.1 t.2.2 count) count

/-- `accountsByImportanceFromAddress`. -/
def accountsByImportanceFromAddress (s : Store) (addr : Nat) (count : Nat) :
    Option (List AccountOut) × Nat :=
  arrayFromId (rawAccountWithImportanceByAddress s addr)
    (fun r => accountsByImportanceFromAccount s r count)

/-- `accountsByImportanceSinceAddress`. -/
def accountsByImportanceSinceAddress (s : Store) (addr : Nat) (count : Nat) :
    Option (List AccountOut) × Nat :=
  arrayFromId (rawAccountWithImportanceByAddress s addr)
    (fun r => accountsByImportanceSinceAccount s r count)

-- ## Cursor account by harvested blocks retrieval (src/unnamed/part_003, lines 933-1034)

/-- `rawAccountWithHarvestedBlocksByAddress`: also materializes
`account.harvestedBlocks`, but the projection
`{ 'account.importances': 0, 'account.harvestedBlocks': 0 }` strips it again,
so the resolved anchor document carries only the importance fields. -/
def rawAccountWithHarvestedBlocksByAddress (s : Store) (addr : Nat) :
    Option RawAccountImp × Nat :=
  let r := s.accounts.find? (fun d => d.address == addr)
  (r.map (fun d =>
    ⟨d.oid, d.address, d.publicKeyHeight, d.activityBuckets, d.mosaics,
      addFieldImportance d, addFieldImportanceHeight d⟩), 1)

/-- The comparator of the sort
`{ 'account.harvestedBlocks': -1, 'account.publicKeyHeight': -1, _id: -1 }`. -/
def accountsByHarvestedBlocksSortLe (a b : AccountDoc) : Bool :=
  addFieldHarvestedBlocks b < addFieldHarvestedBlocks a ||
  (addFieldHarvestedBlocks a == addFieldHarvestedBlocks b &&
    (b.publicKeyHeight < a.publicKeyHeight ||
      (a.publicKeyHeight == b.publicKeyHeight && b.oid ≤ a.oid)))

/-- `sortedAccountsByHarvestedBlocks`: the match condition receives the
materialized `account.harvestedBlocks`. -/
def sortedAccountsByHarvestedBlocks (s : Store)
    (matchCond : Int → AccountDoc → Bool) (count : Nat) :
    List AccountOut × Nat :=
  (((sortWith accountsByHarvestedBlocksSortLe
      (s.accounts.filter (fun d => matchCond (addFieldHarvestedBlocks d) d))).map
        accountOut).take count, 1)

/-- `accountsByHarvestedBlocksFrom`. -/
def accountsByHarvestedBlocksFrom (s : Store) (harvestedBlocks height : Int)
    (id : Nat) (numAccounts : Nat) : List AccountOut × Nat :=
  sortedAccountsByHarvestedBlocks s
    (accountMatchCondition .lt harvestedBlocks height id) numAccounts

/-- `accountsByHarvestedBlocksSince`. -/
def accountsByHarvestedBlocksSince (s : Store) (harvestedBlocks height : Int)
    (id : Nat) (numAccounts : Nat) : List AccountOut × Nat :=
  sortedAccountsByHarvestedBlocks s
    (accountMatchCondition .gt harvestedBlocks height id) numAccounts

/-- `accountsByHarvestedBlocksFromAccount` (src/unnamed/part_003, lines
1008-1012): the anchor tuple is
`[account.account.importance, account.account.publicKeyHeight, account._id]`
— the importance value, not the harvested-blocks count. -/
def accountsByHarvestedBlocksFromAccount (s : Store)
    (record : Option RawAccountImp) (count : Nat) :
    Option (List AccountOut) × Nat :=
  arrayFromRecord record (fun a => (a.importance, a.publicKeyHeight, a.oid))
    (fun t => accountsByHarvestedBlocksFrom s t.1 t.2.1 t.2.2 count) count

/-- `accountsByHarvestedBlocksSinceAccount` (lines 1014-1018): dispatches to
`accountsByHarvestedBlocksFrom`, with the same importance-based tuple. -/
def accountsByHarvestedBlocksSinceAccount (s : Store)
    (record : Option RawAccountImp) (count : Nat) :
    Option (List AccountOut) × Nat :=
  arrayFromRecord record (fun a => (a.importance, a.publicKeyHeight, a.oid))
    (fun t => accountsByHarvestedBlocksFrom s t.1 t.2.1 t.2.2 count) count

/-- `accountsByHarvestedBlocksFromAddress`. -/
def accountsByHarvestedBlocksFromAddress (s : Store) (addr : Nat)
    (count : Nat) : Option (List AccountOut) × Nat :=
  arrayFromId (rawAccountWithHarvestedBlocksByAddress s addr)
    (fun r => accountsByHarvestedBlocksFromAccount s r count)

/-- `accountsByHarvestedBlocksSinceAddress`. -/
def accountsByHarvestedBlocksSinceAddress (s : Store) (addr : Nat)
    (count : Nat) : Option (List AccountOut) × Nat :=
  arrayFromId (rawAccountWithHarvestedBlocksByAddress s addr)
    (fun r => accountsByHarvestedBlocksSinceAccount s r count)

-- ## Cursor account by harvested fees retrieval (src/unnamed/part_003, lines 1038-1143)

/-- `rawAccountWithHarvestedFeesByAddress`: materializes harvestedBlocks and
harvestedFees as well, and the projection strips both again. -/
def rawAccountWithHarvestedFeesByAddress (s : Store) (addr : Nat) :
    Option RawAccountImp × Nat :=
  let r := s.accounts.find? (fun d => d.address == addr)
  (r.map (fun d =>
    ⟨d.oid, d.address, d.publicKeyHeight, d.activityBuckets, d.mosaics,
      addFieldImportance d, addFieldImportanceHeight d⟩), 1)

/-- The comparator of the sort `{ 'account.harvestedFees': -1,
'account.harvestedBlocks': -1, 'account.publicKeyHeight': -1, _id: -1 }`. -/
def accountsByHarvestedFeesSortLe (a b : AccountDoc) : Bool :=
  addFieldHarvestedFees b < addFieldHarvestedFees a ||
  (addFieldHarvestedFees a == addFieldHarvestedFees b &&
    (addFieldHarvestedBlocks b < addFieldHarvestedBlocks a ||
      (addFieldHarvestedBlocks a == addFieldHarvestedBlocks b &&
        (b.publicKeyHeight < a.publicKeyHeight ||
          (a.publicKeyHeight == b.publicKeyHeight && b.oid ≤ a.oid)))))

/-- `sortedAccountsByHarvestedFees`: the match condition receives the
materialized `account.harvestedFees`. -/
def sortedAccountsByHarvestedFees (s : Store)
    (matchCond : Int → AccountDoc → Bool) (count : Nat) :
    List AccountOut × Nat :=
  (((sortWith accountsByHarvestedFeesSortLe
      (s.accounts.filter (fun d => matchCond (addFieldHarvestedFees d) d))).map
        accountOut).take count, 1)

/-- `accountsByHarvestedFeesFrom`. -/
def accountsByHarvestedFeesFrom (s : Store) (harvestedFees height : Int)
    (id : Nat) (numAccounts : Nat) : List AccountOut × Nat :=
  sortedAccountsByHarvestedFees s
    (accountMatchCondition .lt harvestedFees height id) numAccounts

/-- `accountsByHarvestedFeesSince`. -/
def accountsByHarvestedFeesSince (s : Store) (harvestedFees height : Int)
    (id : Nat) (numAccounts : Nat) : List AccountOut × Nat :=
  sortedAccountsByHarvestedFees s
    (accountMatchCondition .gt harvestedFees height id) numAccounts

/-- `accountsByHarvestedFeesFromAccount` (lines 1117-1121): the anchor tuple
again reads `account.account.importance`, not the summed fees. -/
def accountsByHarvestedFeesFromAccount (s : Store)
    (record : Option RawAccountImp) (count : Nat) :
    Option (List AccountOut) × Nat :=
  arrayFromRecord record (fun a => (a.importance, a.publicKeyHeight, a.oid))
    (fun t => accountsByHarvestedFeesFrom s t.1 t.2.1 t.2.2 count) count

/-- `accountsByHarvestedFeesSinceAccount` (lines 1123-1127): dispatches to
`accountsByHarvestedFeesFrom`. -/
def accountsByHarvestedFeesSinceAccount (s : Store)
    (record : Option RawAccountImp) (count : Nat) :
    Option (List AccountOut) × Nat :=
  arrayFromRecord record (fun a => (a.importance, a.publicKeyHeight, a.oid))
    (fun t => accountsByHarvestedFeesFrom s t.1 t.2.1 t.2.2 count) count

/-- `accountsByHarvestedFeesFromAddress`. -/
def accountsByHarvestedFeesFromAddress (s : Store) (addr : Nat)
    (count : Nat) : Option (List AccountOut) × Nat :=
  arrayFromId (rawAccountWithHarvestedFeesByAddress s addr)
    (fun r => accountsByHarvestedFeesFromAccount s r count)

/-- `accountsByHarvestedFeesSinceAddress`. -/
def accountsByHarvestedFeesSinceAddress (s : Store) (addr : Nat)
    (count : Nat) : Option (List AccountOut) × Nat :=
  arrayFromId (rawAccountWithHarvestedFeesByAddress s addr)
    (fun r => accountsByHarvestedFeesSinceAccount s r count)

end CatapultDb

namespace CatapultDbLegacy

-- ## The older coexisting implementation (src/rest/src/db/CatapultDb.js)

/-- `sortedTransactions` of the older class (lines 343-353): identical query
shape to the cursor class. -/
def sortedTransactions (s : Store) (c : Coll) (condition : TxDoc → Bool)
    (count : Nat) : List TxOut × Nat :=
  ((((sortWith CatapultDb.txSortLe ((s.collDocs c).filter condition)).map
      CatapultDb.txOut).take count), 1)

/-- `transactionsFromHeightAndIndex` (lines 357-371): the aggregate-child
exclusion is hard-wired to `$exists: false`. -/
def transactionsFromHeightAndIndex (s : Store) (c : Coll) (height index : Int)
    (count : Nat) : List TxOut × Nat :=
  if count = 0 then ([], 0)
  else
    let condition := fun (d : TxDoc) =>
      (d.aggregateId.isSome == false) &&
        ((d.height == height && d.index < index) || d.height < height)
    sortedTransactions s c condition count

/-- `transactionsFromLatest` (lines 406-416): reads
`chainStatistic.current.height` (one query) and anchors the range at
`(chainHeight + 1, 0)`; the addition is mongodb `Long` addition and wraps at
the 64-bit boundary. -/
def transactionsFromLatest (s : Store) (c : Coll) (count : Nat) :
    List TxOut × Nat :=
  if count = 0 then ([], 0)
  else
    let chainHeight := s.chainHeight
    let height := wrap64 (chainHeight + 1)
    let res := transactionsFromHeightAndIndex s c height 0 count
    (res.1, 1 + res.2)

end CatapultDbLegacy

namespace NamespaceDb

-- ## Raw namespace retrieval (src/rest/src/plugins/namespace/NamespaceDb.js)

/-- `rawNamespaceByObjectId`: `findOne` on `_id`; one store query. -/
def rawNamespaceByObjectId (s : Store) (i : Nat) : Option NamespaceDoc × Nat :=
  (s.namespaces.find? (fun d => d.oid == i), 1)

/-- `rawNamespaceById`: `findOne` with an `$or` over levels 0..2, each clause
requiring `meta.active`, `namespace.level{k} = id` and
`namespace.depth = k + 1`; one store query. -/
def rawNamespaceById (s : Store) (nid : Int) : Option NamespaceDoc × Nat :=
  (s.namespaces.find? (fun d =>
    (d.active && d.level0 == nid && d.depth == 1) ||
    (d.active && d.level1 == nid && d.depth == 2) ||
    (d.active && d.level2 == nid && d.depth == 3)), 1)

-- ## Well-known mosaic retrieval

/-- `uint64.fromHex('85bbea6cc462b244')` passed to `new Long(id[0], id[1])`. -/
def CURRENCY_ID : Int := longFromBits 0xC462B244 0x85BBEA6C

/-- `uint64.fromHex('941299b2b7e1291c')` passed to `new Long(id[0], id[1])`. -/
def HARVEST_ID : Int := longFromBits 0xB7E1291C 0x941299B2

/-- `networkCurrencyMosaic`: look the currency namespace up by its hard-coded
id and read `namespace.alias.mosaicId`.  When the lookup finds nothing the
source dereferences `undefined` and throws; that case is `none` here. -/
def networkCurrencyMosaic (s : Store) : Option Int × Nat :=
  let r := rawNamespaceById s CURRENCY_ID
  (r.1.map (fun n => n.aliasMosaicId), r.2)

/-- `networkHarvestMosaic`. -/
def networkHarvestMosaic (s : Store) : Option Int × Nat :=
  let r := rawNamespaceById s HARVEST_ID
  (r.1.map (fun n => n.aliasMosaicId), r.2)

-- ## Cursor namespace retrieval

/-- `copyAndDeleteIds` on a namespace document. -/
def namespaceOut (d : NamespaceDoc) : NamespaceOut :=
  ⟨d.oid, d.active, d.depth, d.level0, d.level1, d.level2, d.startHeight,
    d.aliasMosaicId⟩

/-- The comparator of the sort `{ 'namespace.startHeight': -1, _id: -1 }`. -/
def namespaceSortLe (a b : NamespaceDoc) : Bool :=
  b.startHeight < a.startHeight ||
  (a.startHeight == b.startHeight && b.oid ≤ a.oid)

/-- `sortedNamespaces` (NamespaceDb.js, lines 93-105): find, sort descending
by startHeight then id, limit, `copyAndDeleteIds`.  One store query; there is
no ascending pre-sort, so the limit keeps the head of the descending
order. -/
def sortedNamespaces (s : Store) (condition : NamespaceDoc → Bool)
    (count : Nat) : List NamespaceOut × Nat :=
  (((sortWith namespaceSortLe (s.namespaces.filter condition)).take count).map
    namespaceOut, 1)

/-- `namespacesFrom`: strictly before the `(startHeight, id)` anchor tuple. -/
def namespacesFrom (s : Store) (height : Int) (id : Nat) (count : Nat) :
    List NamespaceOut × Nat :=
  let condition := fun (d : NamespaceDoc) =>
    (d.startHeight == height && d.oid < id) || d.startHeight < height
  sortedNamespaces s condition count

/-- `namespacesSince`: strictly after the `(startHeight, id)` anchor tuple. -/
def namespacesSince (s : Store) (height : Int) (id : Nat) (count : Nat) :
    List NamespaceOut × Nat :=
  let condition := fun (d : NamespaceDoc) =>
    (d.startHeight == height && d.oid > id) || d.startHeight > height
  sortedNamespaces s condition count

/-- `namespacesFromEarliest`: always empty. -/
def namespacesFromEarliest (_s : Store) (_count : Nat) :
    List NamespaceOut × Nat :=
  CatapultDb.arrayFromEmpty

/-- `namespacesSinceEarliest`: absolute anchor `[minLong, minObjectId]` into
`namespacesSince`. -/
def namespacesSinceEarliest (s : Store) (count : Nat) :
    List NamespaceOut × Nat :=
  CatapultDb.arrayFromAbsolute
    (fun _ => (CatapultDb.minLong, CatapultDb.minObjectId))
    (fun a => namespacesSince s a.1 a.2 count) count

/-- `namespacesFromLatest`: absolute anchor `[maxLong, maxObjectId]` into
`namespacesFrom`. -/
def namespacesFromLatest (s : Store) (count : Nat) :
    List NamespaceOut × Nat :=
  CatapultDb.arrayFromAbsolute
    (fun _ => (CatapultDb.maxLong, CatapultDb.maxObjectId))
    (fun a => namespacesFrom s a.1 a.2 count) count

/-- `namespacesSinceLatest`: always empty. -/
def namespacesSinceLatest (_s : Store) (_count : Nat) :
    List NamespaceOut × Nat :=
  CatapultDb.arrayFromEmpty

/-- `namespacesFromNamespace`: anchor tuple
`[namespace.namespace.startHeight, namespace._id]`. -/
def namespacesFromNamespace (s : Store) (record : Option NamespaceDoc)
    (count : Nat) : Option (List NamespaceOut) × Nat :=
  CatapultDb.arrayFromRecord record (fun n => (n.startHeight, n.oid))
    (fun a => namespacesFrom s a.1 a.2 count) count

/-- `namespacesSinceNamespace`. -/
def namespacesSinceNamespace (s : Store) (record : Option NamespaceDoc)
    (count : Nat) : Option (List NamespaceOut) × Nat :=
  CatapultDb.arrayFromRecord record (fun n => (n.startHeight, n.oid))
    (fun a => namespacesSince s a.1 a.2 count) count

/-- `namespacesFromId`. -/
def namespacesFromId (s : Store) (nid : Int) (count : Nat) :
    Option (List NamespaceOut) × Nat :=
  CatapultDb.arrayFromId (rawNamespaceById s nid)
    (fun r => namespacesFromNamespace s r count)

/-- `namespacesSinceId`. -/
def namespacesSinceId (s : Store) (nid : Int) (count : Nat) :
    Option (List NamespaceOut) × Nat :=
  CatapultDb.arrayFromId (rawNamespaceById s nid)
    (fun r => namespacesSinceNamespace s r count)

/-- `namespacesFromObjectId`. -/
def namespacesFromObjectId (s : Store) (i : Nat) (count : Nat) :
    Option (List NamespaceOut) × Nat :=
  CatapultDb.arrayFromId (rawNamespaceByObjectId s i)
    (fun r => namespacesFromNamespace s r count)

/-- `namespacesSinceObjectId`. -/
def namespacesSinceObjectId (s : Store) (i : Nat) (count : Nat) :
    Option (List NamespaceOut) × Nat :=
  CatapultDb.arrayFromId (rawNamespaceByObjectId s i)
    (fun r => namespacesSinceNamespace s r count)

-- ## Account by namespace-linked mosaic retrieval

/-- `addFieldMosaicBalance`: `$reduce` over `account.mosaics[]` from an
explicit zero long, adding `amount` when the mosaic id matches the target,
else zero. -/
def addFieldMosaicBalance (mosaicId : Int) (d : AccountDoc) : Int :=
  d.mosaics.foldl
    (fun acc m => acc + (if m.id == mosaicId then m.amount else 0)) 0

/-- The comparator of the sort
`{ 'account.balance': -1, 'account.publicKeyHeight': -1, _id: -1 }` for the
balance materialized from `mosaicId`. -/
def accountsByBalanceSortLe (mosaicId : Int) (a b : AccountDoc) : Bool :=
  addFieldMosaicBalance mosaicId b < addFieldMosaicBalance mosaicId a ||
  (addFieldMosaicBalance mosaicId a == addFieldMosaicBalance mosaicId b &&
    (b.publicKeyHeight < a.publicKeyHeight ||
      (a.publicKeyHeight == b.publicKeyHeight && b.oid ≤ a.oid)))

/-- `sortedAccountsByMosaicBalance`: aggregation `addFields` (importance,
importanceHeight, balance from `mosaicId`) + `match`, sort descending by
(balance, publicKeyHeight, id), project `{ 'account.importances': 0,
'account.balance': 0 }`, limit, `deleteIds`.  One store query. -/
def sortedAccountsByMosaicBalance (s : Store) (mosaicId : Int)
    (matchCond : Int → AccountDoc → Bool) (count : Nat) :
    List AccountOut × Nat :=
  (((sortWith (accountsByBalanceSortLe mosaicId)
      (s.accounts.filter
        (fun d => matchCond (addFieldMosaicBalance mosaicId d) d))).map
          CatapultDb.accountOut).take count, 1)

-- ## Cursor account by currency mosaic retrieval (NamespaceDb.js, lines 236-257)

/-- `rawAccountWithCurrencyBalanceByAddress` (lines 236-246): resolves the
balance mosaic through `networkHarvestMosaic()`, then materializes
importance, importanceHeight and balance for the one account matching the
address; the projection removes only `account.importances`. -/
def rawAccountWithCurrencyBalanceByAddress (s : Store) (addr : Nat) :
    Option RawAccountBal × Nat :=
  let m := networkHarvestMosaic s
  match m.1 with
  | none => (none, m.2)
  | some mosaicId =>
      let r := s.accounts.find? (fun d => d.address == addr)
      (r.map (fun d =>
        ⟨d.oid, d.address, d.publicKeyHeight, d.activityBuckets, d.mosaics,
          CatapultDb.addFieldImportance d, CatapultDb.addFieldImportanceHeight d,
          addFieldMosaicBalance mosaicId d⟩), m.2 + 1)

/-- `sortedAccountsByCurrencyBalance` (lines 253-257): resolves the balance
mosaic through `networkCurrencyMosaic()` and delegates to
`sortedAccountsByMosaicBalance`. -/
def sortedAccountsByCurrencyBalance (s : Store)
    (matchCond : Int → AccountDoc → Bool) (count : Nat) :
    Option (List AccountOut) × Nat :=
  let m := networkCurrencyMosaic s
  match m.1 with
  | none => (none, m.2)
  | some mosaicId =>
      let r := sortedAccountsByMosaicBalance s mosaicId matchCond count
      (some r.1, m.2 + r.2)

/-- `accountsByCurrencyBalanceFrom`: match
`accountMatchCondition('balance', '$lt', ...)`. -/
def accountsByCurrencyBalanceFrom (s : Store) (balance height : Int) (id : Nat)
    (numAccounts : Nat) : Option (List AccountOut) × Nat :=
  sortedAccountsByCurrencyBalance s
    (CatapultDb.accountMatchCondition .lt balance height id) numAccounts

/-- `accountsByCurrencyBalanceSince`: match
`accountMatchCondition('balance', '$gt', ...)`. -/
def accountsByCurrencyBalanceSince (s : Store) (balance height : Int) (id : Nat)
    (numAccounts : Nat) : Option (List AccountOut) × Nat :=
  sortedAccountsByCurrencyBalance s
    (CatapultDb.accountMatchCondition .gt balance height id) numAccounts

end NamespaceDb

namespace routeUtils

-- ## Named validators (src/rest/src/routes/routeUtils.js, lines 44-55)

/-- `convert.isHexString` from the catapult-sdk (external collaborator):
every character is a hexadecimal digit and the length is even. -/
def isHexString (str : String) : Bool :=
  str.length % 2 == 0 &&
    str.data.all (fun c =>
      c.isDigit || (Char.ofNat 97 ≤ c && c ≤ Char.ofNat 102) ||
        (Char.ofNat 65 ≤ c && c ≤ Char.ofNat 70))

/-- `namedValidatorMap.objectId`: 24 hex characters. -/
def namedValidatorObjectId (str : String) : Bool :=
  str.length == 24 && isHexString str

/-- `namedValidatorMap.hash256`: the validator checks only the length. -/
def namedValidatorHash256 (str : String) : Bool :=
  str.length == 64

/-- `namedValidatorMap.earliest`. -/
def namedValidatorEarliest (str : String) : Bool :=
  str == "earliest" || str == "min"

/-- `namedValidatorMap.latest`. -/
def namedValidatorLatest (str : String) : Bool :=
  str == "latest" || str == "max"

-- ## Duration-route dispatch (getTransactions, transactionRoutes.js)

/-- The database call a transaction cursor route selects: the method name
built by string concatenation from the duration, and its arguments. -/
inductive TxDispatch where
  | absolute (dbMethod : String) (limit : Nat)
  | byId (dbMethod : String) (id : String) (limit : Nat)
  | byHash (dbMethod : String) (hash : String) (limit : Nat)
deriving DecidableEq, Repr

/-- The `getTransactions` dispatch chain: earliest keyword, latest keyword,
object id, hash, in that order; anything else is the invalid-identifier
error (`none`). -/
def getTransactionsDispatch (duration : String) (transaction : String)
    (limit : Nat) : Option TxDispatch :=
  if namedValidatorEarliest transaction then
    some (.absolute ("transactions" ++ duration ++ "Earliest") limit)
  else if namedValidatorLatest transaction then
    some (.absolute ("transactions" ++ duration ++ "Latest") limit)
  else if namedValidatorObjectId transaction then
    some (.byId ("transactions" ++ duration ++ "Id") transaction limit)
  else if namedValidatorHash256 transaction then
    some (.byHash ("transactions" ++ duration ++ "Hash") transaction limit)
  else
    none

-- ## queryAndSendDurationCollection (routeUtils.js, lines 317-323)

/-- What reaches the client from a duration-collection route. -/
inductive AdaptorOutcome (γ : Type) where
  | sent (payload : List γ)
  | notFound
  | thrown
deriving DecidableEq, Repr

/-- `queryAndSendDurationCollection`: calls the database method and then maps
the transformer over the data and sends the payload, unconditionally.  When
the anchor lookup found no record the database method resolved to
`undefined` (`none`), and `data.map(transformer)` throws a TypeError inside
the promise chain — nothing is sent and no 404 is produced. -/
def queryAndSendDurationCollection (data : Option (List β))
    (transformer : β → γ) : AdaptorOutcome γ :=
  match data with
  | some l => .sent (l.map transformer)
  | none => .thrown

end routeUtils

-- # Concrete stores for the claim-level evaluations

/-- An account with the higher importance (the anchor in the importance
counterexamples). -/
def acctA : AccountDoc := ⟨10, 100, 1, [⟨9, 4⟩], [], []⟩

/-- An account with the lower importance. -/
def acctB : AccountDoc := ⟨20, 200, 1, [⟨5, 3⟩], [], []⟩

/-- Store with the two accounts `acctA` and `acctB`. -/
def accountStoreA : Store := ⟨10, [], [], [], [], [acctA, acctB]⟩

/-- Anchor account for the harvested cursors: importance 7, three activity
buckets (harvestedBlocks 3), summed fees 6. -/
def acctHA : AccountDoc := ⟨10, 100, 1, [⟨7, 1⟩], [⟨2⟩, ⟨2⟩, ⟨2⟩], []⟩

/-- Second account: importance 0, five activity buckets (harvestedBlocks 5),
summed fees 20. -/
def acctHB : AccountDoc := ⟨20, 200, 1, [⟨0, 1⟩], [⟨4⟩, ⟨4⟩, ⟨4⟩, ⟨4⟩, ⟨4⟩], []⟩

/-- Store with the two accounts `acctHA` and `acctHB`. -/
def accountStoreH : Store := ⟨10, [], [], [], [], [acctHA, acctHB]⟩

/-- The active network currency namespace, aliasing mosaic 100. -/
def nsCurrencyDoc : NamespaceDoc :=
  ⟨1, true, 1, NamespaceDb.CURRENCY_ID, 0, 0, 1, 100⟩

/-- The active network harvest namespace, aliasing mosaic 200. -/
def nsHarvestDoc : NamespaceDoc :=
  ⟨2, true, 1, NamespaceDb.HARVEST_ID, 0, 0, 1, 200⟩

/-- Account holding 10 of the currency mosaic (100) and 99 of the harvest
mosaic (200). -/
def acctX : AccountDoc := ⟨30, 500, 1, [], [], [⟨100, 10⟩, ⟨200, 99⟩]⟩

/-- Account holding 20 of the currency mosaic and 1 of the harvest mosaic. -/
def acctY : AccountDoc := ⟨40, 600, 1, [], [], [⟨100, 20⟩, ⟨200, 1⟩]⟩

/-- Store with the two well-known namespaces and the accounts `acctX`,
`acctY`. -/
def storeC4 : Store :=
  ⟨10, [], [], [], [nsCurrencyDoc, nsHarvestDoc], [acctX, acctY]⟩

/-- Namespace registered at start height 1. -/
def nsN1 : NamespaceDoc := ⟨1, true, 1, 11, 0, 0, 1, 0⟩

/-- Namespace registered at start height 2. -/
def nsN2 : NamespaceDoc := ⟨2, true, 1, 12, 0, 0, 2, 0⟩

/-- Store with the two namespaces `nsN1` and `nsN2`. -/
def storeC2 : Store := ⟨10, [], [], [], [nsN1, nsN2], []⟩

/-- A confirmed transaction at height 3, index 0, with hash 5. -/
def txT1 : TxDoc := ⟨1, 5, 3, 0, none⟩

/-- Store with the single confirmed transaction `txT1` at chain height 10. -/
def storeC6 : Store := ⟨10, [txT1], [], [], [], []⟩

/-- A confirmed transaction at height 5, index 0. -/
def txT9 : TxDoc := ⟨1, 7, 5, 0, none⟩

/-- Store whose chain-statistic height is exactly `maxLong`. -/
def storeC9 : Store := ⟨CatapultDb.maxLong, [txT9], [], [], [], []⟩

/-- Store for the equivalence witness: chain height 10 and one transaction
below it. -/
def storeC9w : Store := ⟨10, [txT9], [], [], [], []⟩

-- # Claim theorems

/-- C1: the spec says the range condition of `since(anchor, n)` is the
strict-greater-than chain, so every returned document compares strictly
greater than the anchor tuple, in particular for account cursors anchored at
a resolved account document.  The code violates this:
`accountsByImportanceSinceAccount` dispatches to `accountsByImportanceFrom`
(the strict-less-than query), so `since` over an account anchor returns the
documents strictly below the anchor.  Evaluated at a concrete store: the
anchor `acctA` has importance 9, and since-by-address returns exactly
`acctB` with importance 5 < 9. -/
theorem c1_sinceAccount_runs_from_query :
    (CatapultDb.accountsByImportanceSinceAddress accountStoreA 100 10).1 =
      some [CatapultDb.accountOut acctB] ∧
    CatapultDb.addFieldImportance acctB < CatapultDb.addFieldImportance acctA := by
  constructor
  · rfl
  · decide

/-- C2: the spec says `since` locates its window at the ascending end of the
range (`since(earliest, n)` is the bottom `n`, re-sorted descending).  For
namespaces the code sorts descending and then limits, so
`namespacesSinceEarliest` returns the top of the range: on a store with
start heights 1 and 2, `since(earliest, 1)` returns the height-2 namespace,
not the height-1 namespace the claim requires. -/
theorem c2_sinceEarliest_returns_top_of_range :
    (NamespaceDb.namespacesSinceEarliest storeC2 1).1 =
      [NamespaceDb.namespaceOut nsN2] ∧
    nsN1.startHeight < nsN2.startHeight ∧
    NamespaceDb.namespaceOut nsN2 ≠ NamespaceDb.namespaceOut nsN1 := by
  refine ⟨rfl, by decide, by decide⟩

/-- C3: the claim says the primary component of the anchor tuple of the
harvested-blocks and harvested-fees cursors is read from the document's
primary sort field (bucket count, summed fees).  The code reads
`account.account.importance` instead (the raw resolvers even project the
harvested fields away).  At a concrete store: the anchor `acctHA` has 3
buckets and fees 6 but importance 7, and `from` by address compares the
harvested fields against 7 — returning `acctHB` (5 buckets, more than the
anchor) and the anchor itself for the blocks cursor, and the anchor itself
for the fees cursor. -/
theorem c3_harvested_anchor_reads_importance :
    (CatapultDb.rawAccountWithHarvestedBlocksByAddress accountStoreH 100).1 =
      some ⟨10, 100, 1, acctHA.activityBuckets, [], 7, 1⟩ ∧
    CatapultDb.addFieldHarvestedBlocks acctHA = 3 ∧
    CatapultDb.addFieldHarvestedFees acctHA = 6 ∧
    (CatapultDb.accountsByHarvestedBlocksFromAddress accountStoreH 100 10).1 =
      some [CatapultDb.accountOut acctHB, CatapultDb.accountOut acctHA] ∧
    CatapultDb.addFieldHarvestedBlocks acctHA <
      CatapultDb.addFieldHarvestedBlocks acctHB ∧
    (CatapultDb.accountsByHarvestedFeesFromAddress accountStoreH 100 10).1 =
      some [CatapultDb.accountOut acctHA] := by
  refine ⟨rfl, by decide, by decide, rfl, by decide, rfl⟩

/-- C4: the claim says every accounts-by-currency-balance operation computes
the balance from the mosaic aliased by the currency namespace
(`85BBEA6CC462B244`).  The sorted page query does (`acctY` with currency
balance 20 sorts above `acctX` with 10), but the anchor resolver
`rawAccountWithCurrencyBalanceByAddress` calls `networkHarvestMosaic`, so
the resolved anchor for `acctX` carries balance 99 (its harvest-mosaic
amount), not 10. -/
theorem c4_currency_anchor_uses_harvest_mosaic :
    (NamespaceDb.networkCurrencyMosaic storeC4).1 = some 100 ∧
    (NamespaceDb.networkHarvestMosaic storeC4).1 = some 200 ∧
    (NamespaceDb.rawAccountWithCurrencyBalanceByAddress storeC4 500).1 =
      some ⟨30, 500, 1, [], acctX.mosaics, 0, 0, 99⟩ ∧
    NamespaceDb.addFieldMosaicBalance 100 acctX = 10 ∧
    (NamespaceDb.accountsByCurrencyBalanceFrom storeC4 CatapultDb.maxLong
        CatapultDb.maxLong CatapultDb.maxObjectId 10).1 =
      some [CatapultDb.accountOut acctY, CatapultDb.accountOut acctX] := by
  refine ⟨by decide, by decide, by decide, by decide, by decide⟩

/-- C5: the claim says every other document lands in exactly one of
`from(d, ∞)` and `since(d, ∞)`.  Because the account `since` wrappers
dispatch to the `from` query, `acctB` is returned by both `from` and `since`
anchored at `acctA` with an unrestricted page size. -/
theorem c5_both_directions_return_same_document :
    (CatapultDb.accountsByImportanceFromAddress accountStoreA 100 10).1 =
      some [CatapultDb.accountOut acctB] ∧
    (CatapultDb.accountsByImportanceSinceAddress accountStoreA 100 10).1 =
      some [CatapultDb.accountOut acctB] := by
  exact ⟨rfl, rfl⟩

/-- C7: the claim says a missed anchor lookup becomes an HTTP 404.  The
engine does yield the distinguished `undefined` result, but
`queryAndSendDurationCollection` maps the transformer over it
unconditionally, so the route throws a TypeError instead of sending a 404:
on a store without hash 6, `transactionsFromHash` resolves to `none` and the
adaptor outcome is `thrown`, not `notFound`. -/
theorem c7_missing_anchor_throws_instead_of_404 :
    (CatapultDb.rawTransactionByHash storeC6 Coll.transactions 6).1 = none ∧
    routeUtils.queryAndSendDurationCollection
        (CatapultDb.transactionsFromHash storeC6 Coll.transactions 6 25).1
        (fun o => o) = routeUtils.AdaptorOutcome.thrown ∧
    (routeUtils.AdaptorOutcome.thrown : routeUtils.AdaptorOutcome TxOut) ≠
      routeUtils.AdaptorOutcome.notFound := by
  refine ⟨rfl, rfl, by decide⟩

/-- C8: the claim says the sentinels are the extreme signed 64-bit longs and
the extreme 12-byte ids.  `maxLong`, `minObjectId` and `maxObjectId` are as
claimed, but `minLong` is `new Long(0, 0)` = 0, not `-2^63` (contradicting
the method's own comment). -/
theorem c8_sentinel_values :
    CatapultDb.minLong = 0 ∧
    CatapultDb.minLong ≠ -(2 ^ 63) ∧
    CatapultDb.maxLong = 2 ^ 63 - 1 ∧
    CatapultDb.minObjectId = 0 ∧
    CatapultDb.maxObjectId = 2 ^ 96 - 1 := by
  refine ⟨by decide, by decide, by decide, by decide, by decide⟩

/-- C10: the `earliest` validator accepts exactly the strings `earliest` and
`min`, the `latest` validator exactly `latest` and `max`, and the duration
route dispatch therefore selects the same database method and arguments for
`min` as for `earliest` and for `max` as for `latest`. -/
theorem c10_min_max_are_aliases :
    (∀ str : String,
      routeUtils.namedValidatorEarliest str = true ↔
        (str = "earliest" ∨ str = "min")) ∧
    (∀ str : String,
      routeUtils.namedValidatorLatest str = true ↔
        (str = "latest" ∨ str = "max")) ∧
    (∀ duration : String, ∀ limit : Nat,
      routeUtils.getTransactionsDispatch duration "min" limit =
        routeUtils.getTransactionsDispatch duration "earliest" limit ∧
      routeUtils.getTransactionsDispatch duration "max" limit =
        routeUtils.getTransactionsDispatch duration "latest" limit) := by
  refine ⟨?_, ?_, ?_⟩
  · intro str
    simp [routeUtils.namedValidatorEarliest]
  · intro str
    simp [routeUtils.namedValidatorLatest]
  · intro duration limit
    exact ⟨rfl, rfl⟩

/-- C10 witness: the dispatch equality evaluated at a concrete route
request. -/
theorem c10_min_max_are_aliases_witness :
    routeUtils.getTransactionsDispatch "From" "min" 25 =
      routeUtils.getTransactionsDispatch "From" "earliest" 25 :=
  (c10_min_max_are_aliases.2.2 "From" 25).1

-- # Helper lemmas for the page-cap and refinement claims

theorem take_length_le (l : List α) (n : Nat) : (l.take n).length ≤ n := by
  rw [List.length_take]
  exact Nat.min_le_left _ _

theorem sortedTransactions_length_le (s : Store) (c : Coll)
    (cond : TxDoc → Bool) (n : Nat) :
    (CatapultDb.sortedTransactions s c cond n).1.length ≤ n :=
  take_length_le _ _

theorem transactionsFrom_length_le (s : Store) (c : Coll) (h i : Int)
    (n : Nat) : (CatapultDb.transactionsFrom s c h i n).1.length ≤ n :=
  take_length_le _ _

theorem transactionsSince_length_le (s : Store) (c : Coll) (h i : Int)
    (n : Nat) : (CatapultDb.transactionsSince s c h i n).1.length ≤ n :=
  take_length_le _ _

theorem sortedNamespaces_length_le (s : Store) (cond : NamespaceDoc → Bool)
    (n : Nat) : (NamespaceDb.sortedNamespaces s cond n).1.length ≤ n := by
  simp [NamespaceDb.sortedNamespaces, List.length_take]

theorem namespacesFrom_length_le (s : Store) (h : Int) (i : Nat) (n : Nat) :
    (NamespaceDb.namespacesFrom s h i n).1.length ≤ n :=
  sortedNamespaces_length_le _ _ _

theorem namespacesSince_length_le (s : Store) (h : Int) (i : Nat) (n : Nat) :
    (NamespaceDb.namespacesSince s h i n).1.length ≤ n :=
  sortedNamespaces_length_le _ _ _

theorem accountsByImportanceFrom_length_le (s : Store) (v h : Int) (i : Nat)
    (n : Nat) : (CatapultDb.accountsByImportanceFrom s v h i n).1.length ≤ n :=
  take_length_le _ _

theorem accountsByImportanceSince_length_le (s : Store) (v h : Int) (i : Nat)
    (n : Nat) : (CatapultDb.accountsByImportanceSince s v h i n).1.length ≤ n :=
  take_length_le _ _

theorem arrayFromAbsolute_length_le (genArgs : Unit → α)
    (method : α → List β × Nat) (count : Nat)
    (hm : ∀ a, (method a).1.length ≤ count) :
    (CatapultDb.arrayFromAbsolute genArgs method count).1.length ≤ count := by
  by_cases hc : count = 0
  · simp [CatapultDb.arrayFromAbsolute, hc, CatapultDb.arrayFromEmpty]
  · simpa [CatapultDb.arrayFromAbsolute, hc] using hm (genArgs ())

theorem arrayFromRecord_length_le (record : Option ρ) (genArgs : ρ → α)
    (method : α → List β × Nat) (count : Nat)
    (hm : ∀ a, (method a).1.length ≤ count) :
    ∀ l, (CatapultDb.arrayFromRecord record genArgs method count).1 = some l →
      l.length ≤ count := by
  intro l hl
  cases record with
  | none => simp [CatapultDb.arrayFromRecord] at hl
  | some r =>
      by_cases hc : count = 0
      · simp [CatapultDb.arrayFromRecord, hc, CatapultDb.arrayFromEmpty] at hl
        subst hl
        simp
      · simp [CatapultDb.arrayFromRecord, hc] at hl
        rw [← hl]
        exact hm (genArgs r)

theorem arrayFromId_length_le (idLookup : Option ρ × Nat)
    (arrayMethod : Option ρ → Option (List β) × Nat) (count : Nat)
    (hm : ∀ r l, (arrayMethod r).1 = some l → l.length ≤ count) :
    ∀ l, (CatapultDb.arrayFromId idLookup arrayMethod).1 = some l →
      l.length ≤ count := by
  intro l hl
  exact hm idLookup.1 l hl

/-- C6 counterexample: `from` anchored at an opaque document id with
`n = 0` returns the empty sequence but still issues the anchor-lookup query
(`arrayFromId` runs the id lookup before `arrayFromRecord` tests the
count), contradicting "without issuing any query to the document store". -/
theorem c6_counterexample_zero_count_still_queries :
    (CatapultDb.transactionsFromId storeC6 Coll.transactions 1 0).1 = some [] ∧
    (CatapultDb.transactionsFromId storeC6 Coll.transactions 1 0).2 = 1 ∧
    (1 : Nat) ≠ 0 := by
  refine ⟨rfl, rfl, by decide⟩

/-- C6 amended: `from` and `since` return at most `n` documents for every
anchor kind; with `n = 0` the absolute-anchor operations return the empty
sequence and issue no store query; a natural-key or opaque-id anchor still
issues exactly its one anchor-lookup query at `n = 0`, returning the empty
sequence when the anchor resolves and the not-found result otherwise. -/
theorem c6_amended_page_cap (s : Store) (c : Coll) (i hash addr : Nat)
    (nid : Int) (count : Nat) :
    ((CatapultDb.transactionsFromLatest s c count).1.length ≤ count ∧
      (CatapultDb.transactionsSinceEarliest s c count).1.length ≤ count ∧
      (∀ l, (CatapultDb.transactionsFromId s c i count).1 = some l →
        l.length ≤ count) ∧
      (∀ l, (CatapultDb.transactionsSinceHash s c hash count).1 = some l →
        l.length ≤ count) ∧
      (NamespaceDb.namespacesFromLatest s count).1.length ≤ count ∧
      (∀ l, (NamespaceDb.namespacesSinceId s nid count).1 = some l →
        l.length ≤ count) ∧
      (CatapultDb.accountsByImportanceFromMost s count).1.length ≤ count ∧
      (∀ l, (CatapultDb.accountsByImportanceSinceAddress s addr count).1 =
        some l → l.length ≤ count)) ∧
    (CatapultDb.transactionsFromLatest s c 0 = ([], 0) ∧
      CatapultDb.transactionsSinceEarliest s c 0 = ([], 0) ∧
      NamespaceDb.namespacesFromLatest s 0 = ([], 0) ∧
      NamespaceDb.namespacesSinceEarliest s 0 = ([], 0) ∧
      CatapultDb.accountsByImportanceFromMost s 0 = ([], 0) ∧
      CatapultDb.accountsByImportanceSinceLeast s 0 = ([], 0)) ∧
    ((CatapultDb.transactionsFromId s c i 0).2 = 1 ∧
      (∀ r, (CatapultDb.rawTransactionById s c i).1 = some r →
        (CatapultDb.transactionsFromId s c i 0).1 = some []) ∧
      ((CatapultDb.rawTransactionById s c i).1 = none →
        (CatapultDb.transactionsFromId s c i 0).1 = none)) := by
  refine ⟨⟨?_, ?_, ?_, ?_, ?_, ?_, ?_, ?_⟩,
    ⟨rfl, rfl, rfl, rfl, rfl, rfl⟩, ?_, ?_, ?_⟩
  · exact arrayFromAbsolute_length_le (fun _ => (CatapultDb.maxLong, (0 : Int)))
      (fun a => CatapultDb.transactionsFrom s c a.1 a.2 count) count
      (fun a => transactionsFrom_length_le s c a.1 a.2 count)
  · exact arrayFromAbsolute_length_le (fun _ => (CatapultDb.minLong, (-1 : Int)))
      (fun a => CatapultDb.transactionsSince s c a.1 a.2 count) count
      (fun a => transactionsSince_length_le s c a.1 a.2 count)
  · exact arrayFromId_length_le (CatapultDb.rawTransactionById s c i)
      (fun r => CatapultDb.transactionsFromTransaction s c r count) count
      (fun r l hl =>
        arrayFromRecord_length_le r (fun t => (t.height, t.index))
          (fun a => CatapultDb.transactionsFrom s c a.1 a.2 count) count
          (fun a => transactionsFrom_length_le s c a.1 a.2 count) l hl)
  · exact arrayFromId_length_le (CatapultDb.rawTransactionByHash s c hash)
      (fun r => CatapultDb.transactionsSinceTransaction s c r count) count
      (fun r l hl =>
        arrayFromRecord_length_le r (fun t => (t.height, t.index))
          (fun a => CatapultDb.transactionsSince s c a.1 a.2 count) count
          (fun a => transactionsSince_length_le s c a.1 a.2 count) l hl)
  · exact arrayFromAbsolute_length_le
      (fun _ => (CatapultDb.maxLong, CatapultDb.maxObjectId))
      (fun a => NamespaceDb.namespacesFrom s a.1 a.2 count) count
      (fun a => namespacesFrom_length_le s a.1 a.2 count)
  · exact arrayFromId_length_le (NamespaceDb.rawNamespaceById s nid)
      (fun r => NamespaceDb.namespacesSinceNamespace s r count) count
      (fun r l hl =>
        arrayFromRecord_length_le r (fun n => (n.startHeight, n.oid))
          (fun a => NamespaceDb.namespacesSince s a.1 a.2 count) count
          (fun a => namespacesSince_length_le s a.1 a.2 count) l hl)
  · exact arrayFromAbsolute_length_le
      (fun _ => (CatapultDb.maxLong, CatapultDb.maxLong, CatapultDb.maxObjectId))
      (fun a => CatapultDb.accountsByImportanceFrom s a.1 a.2.1 a.2.2 count) count
      (fun a => accountsByImportanceFrom_length_le s a.1 a.2.1 a.2.2 count)
  · exact arrayFromId_length_le
      (CatapultDb.rawAccountWithImportanceByAddress s addr)
      (fun r => CatapultDb.accountsByImportanceSinceAccount s r count) count
      (fun r l hl =>
        arrayFromRecord_length_le r
          (fun a => (a.importance, a.publicKeyHeight, a.oid))
          (fun a => CatapultDb.accountsByImportanceFrom s a.1 a.2.1 a.2.2 count)
          count
          (fun a => accountsByImportanceFrom_length_le s a.1 a.2.1 a.2.2 count)
          l hl)
  · show 1 + (CatapultDb.transactionsFromTransaction s c
        ((s.collDocs c).find? (fun d => d.oid == i)) 0).2 = 1
    cases (s.collDocs c).find? (fun d => d.oid == i) <;> rfl
  · intro r hr
    show (CatapultDb.transactionsFromTransaction s c
        ((s.collDocs c).find? (fun d => d.oid == i)) 0).1 = some []
    rw [show ((s.collDocs c).find? (fun d => d.oid == i)) = some r from hr]
    rfl
  · intro hr
    show (CatapultDb.transactionsFromTransaction s c
        ((s.collDocs c).find? (fun d => d.oid == i)) 0).1 = none
    rw [show ((s.collDocs c).find? (fun d => d.oid == i)) = none from hr]
    rfl

/-- C6 witness: the amended claim applied to the concrete store with the
anchor id resolving to `txT1` and a zero count. -/
theorem c6_amended_page_cap_witness :
    (CatapultDb.transactionsFromId storeC6 Coll.transactions 1 0).1 = some [] :=
  (c6_amended_page_cap storeC6 Coll.transactions 1 5 100 0 0).2.2.2.1 txT1 rfl

theorem maxLong_val : CatapultDb.maxLong = 2 ^ 63 - 1 := by decide

theorem wrap64_eq_self (x : Int) (hlo : -(2 ^ 63) ≤ x) (hhi : x < 2 ^ 63) :
    wrap64 x = x := by
  unfold wrap64
  rw [Int.emod_eq_of_lt (by omega) (by omega)]
  omega

theorem sortedTransactions_congr (s : Store) (c : Coll)
    (f g : TxDoc → Bool) (n : Nat) (h : ∀ d ∈ s.collDocs c, f d = g d) :
    CatapultDb.sortedTransactions s c f n = CatapultDb.sortedTransactions s c g n := by
  unfold CatapultDb.sortedTransactions
  rw [List.filter_congr h]

/-- C9 counterexample: at a store whose chain-statistic height is exactly
`maxLong` — a state allowed by the claim, since the only transaction sits at
height 5 ≤ chain height — the older implementation wraps `chainHeight + 1`
to `-2^63` and returns nothing, while the cursor implementation anchored at
`maxLong` returns the transaction. -/
theorem c9_counterexample_wrap_at_max :
    (∀ d ∈ storeC9.transactions, d.height ≤ storeC9.chainHeight) ∧
    (CatapultDbLegacy.transactionsFromLatest storeC9 Coll.transactions 1).1 = [] ∧
    (CatapultDb.transactionsFromLatest storeC9 Coll.transactions 1).1 =
      [CatapultDb.txOut txT9] ∧
    ([] : List TxOut) ≠ [CatapultDb.txOut txT9] := by
  refine ⟨by decide, by decide, by decide, by decide⟩

/-- C9 amended: on every store whose chain-statistic height is a valid
signed 64-bit long strictly below `maxLong` and bounds the height of every
confirmed transaction, the two coexisting `transactionsFromLatest`
implementations return the same sequence for every count. -/
theorem c9_amended_equivalence (s : Store) (count : Nat)
    (hlo : -(2 ^ 63) ≤ s.chainHeight)
    (hhi : s.chainHeight < CatapultDb.maxLong)
    (hall : ∀ d ∈ s.transactions, d.height ≤ s.chainHeight) :
    (CatapultDbLegacy.transactionsFromLatest s Coll.transactions count).1 =
      (CatapultDb.transactionsFromLatest s Coll.transactions count).1 := by
  by_cases hc : count = 0
  · subst hc
    rfl
  · have hmax : CatapultDb.maxLong = 2 ^ 63 - 1 := maxLong_val
    rw [hmax] at hhi
    have hwrap : wrap64 (s.chainHeight + 1) = s.chainHeight + 1 :=
      wrap64_eq_self _ (by omega) (by omega)
    have lhs : (CatapultDbLegacy.transactionsFromLatest s Coll.transactions count).1
        = (CatapultDb.sortedTransactions s Coll.transactions
            (fun d => (d.aggregateId.isSome == false) &&
              ((d.height == wrap64 (s.chainHeight + 1) && d.index < 0) ||
                d.height < wrap64 (s.chainHeight + 1))) count).1 := by
      simp only [CatapultDbLegacy.transactionsFromLatest,
        CatapultDbLegacy.transactionsFromHeightAndIndex, if_neg hc]
      rfl
    have rhs : (CatapultDb.transactionsFromLatest s Coll.transactions count).1
        = (CatapultDb.sortedTransactions s Coll.transactions
            (fun d => (d.aggregateId.isSome ==
                (Coll.transactions == Coll.partialTransactions)) &&
              ((d.height == CatapultDb.maxLong && d.index < 0) ||
                d.height < CatapultDb.maxLong)) count).1 := by
      simp only [CatapultDb.transactionsFromLatest, CatapultDb.arrayFromAbsolute,
        CatapultDb.transactionsFrom, if_neg hc]
    have hcongr := sortedTransactions_congr s Coll.transactions
      (fun d => (d.aggregateId.isSome == false) &&
        ((d.height == wrap64 (s.chainHeight + 1) && d.index < 0) ||
          d.height < wrap64 (s.chainHeight + 1)))
      (fun d => (d.aggregateId.isSome ==
          (Coll.transactions == Coll.partialTransactions)) &&
        ((d.height == CatapultDb.maxLong && d.index < 0) ||
          d.height < CatapultDb.maxLong)) count ?_
    · rw [lhs, rhs, hcongr]
    · intro d hd
      have hdh : d.height ≤ s.chainHeight := hall d hd
      have e0 : (Coll.transactions == Coll.partialTransactions) = false := by decide
      have e1 : decide (d.height < wrap64 (s.chainHeight + 1)) = true := by
        rw [hwrap]
        exact decide_eq_true (by omega)
      have e2 : decide (d.height < CatapultDb.maxLong) = true := by
        rw [hmax]
        exact decide_eq_true (by omega)
      simp only [e0, e1, e2, Bool.or_true, Bool.and_true]

/-- C9 witness: the amended equivalence applied at a concrete store whose
chain height is 10 and whose one transaction sits at height 5. -/
theorem c9_amended_equivalence_witness :
    (CatapultDbLegacy.transactionsFromLatest storeC9w Coll.transactions 2).1 =
      (CatapultDb.transactionsFromLatest storeC9w Coll.transactions 2).1 :=
  c9_amended_equivalence storeC9w 2 (by decide) (by decide) (by decide)
